import Mathlib

/-
Verification of the scoring and strategy-derivation engine of the
stock-analyzer repository, against its natural-language specification.

The embedding below is a shallow, exact-rational (ℚ) model of
`analyze_stock` (src/analyze_nikkei_score.py) and `get_strategy_metrics`
(src/calculate_swing_strategy.py).  Python/pandas float values that can be
NaN (rolling windows that are not yet full, RSI of a flat window) are
modelled as `Option ℚ` with `none` playing the role of NaN; comparisons
against NaN are `False` in Python, which `pyGT`/`pyGE` mirror.  Paths on
which the Python code raises are modelled with `Except String`.
Presentation-only outputs (commentary strings, tag lists, Bollinger/HV
values, which never feed the score) are not modelled.
-/

attribute [local semireducible] Rat.add Rat.sub Rat.mul Rat.inv

set_option maxRecDepth 1000000

/-- One OHLCV price bar (one trading day).  `analyze_stock` and
`get_strategy_metrics` read the High, Low, Close and Volume columns. -/
structure Bar where
  openPrice : ℚ
  high : ℚ
  low : ℚ
  close : ℚ
  volume : ℚ
deriving DecidableEq

/-- Optional point-in-time fundamentals, the `fundamentals` dict parameter
of `analyze_stock` (keys pbr / per); absence contributes 0, matching
`pbr, per = 0, 0` in batch mode. -/
structure Fundamentals where
  pbr : ℚ
  per : ℚ
deriving DecidableEq

def closes (s : List Bar) : List ℚ := s.map Bar.close

def highs (s : List Bar) : List ℚ := s.map Bar.high

def lows (s : List Bar) : List ℚ := s.map Bar.low

def volumes (s : List Bar) : List ℚ := s.map Bar.volume

/-- Last element of a rational list, defaulting to 0 (only used on
nonempty lists, mirroring `.iloc[-1]` after the emptiness guard). -/
def lastD (l : List ℚ) : ℚ := l.getLast?.getD 0

def lastClose (s : List Bar) : ℚ := lastD (closes s)

/-- The last `n` elements of a list (the window `.iloc[-n:]` and the last
position of a pandas `rolling(n)` window). -/
def lastN (n : ℕ) (xs : List ℚ) : List ℚ := xs.drop (xs.length - n)

/-- Python builtin `max` over a nonempty float window (no NaNs present in
the windows this is applied to); the `[]` case is never reached. -/
def maxListD : List ℚ → ℚ
  | [] => 0
  | x :: rest => rest.foldl max x

/-- Python builtin `min` over a nonempty float window. -/
def minListD : List ℚ → ℚ
  | [] => 0
  | x :: rest => rest.foldl min x

/-- Mirrors `series.rolling(window=w).mean().iloc[-1]`: `none` (NaN) while fewer
than `w` values exist, otherwise the mean of the last `w` values. -/
def rollMeanLast (w : ℕ) (xs : List ℚ) : Option ℚ :=
  if xs.length < w then none else some ((lastN w xs).sum / (w : ℚ))

/-- Successive differences `series.diff()` (dropping the leading NaN). -/
def diffList : List ℚ → List ℚ
  | [] => []
  | [_] => []
  | x :: y :: rest => (y - x) :: diffList (y :: rest)

/-- Python float comparison `a > b` where either side may be NaN:
any comparison against NaN is False. -/
def pyGT (a b : Option ℚ) : Bool :=
  match a, b with
  | some x, some y => decide (y < x)
  | _, _ => false

/-- Python float comparison `a >= b` where either side may be NaN. -/
def pyGE (a b : Option ℚ) : Bool :=
  match a, b with
  | some x, some y => decide (y ≤ x)
  | _, _ => false

/-- Python `abs` on a rational. -/
def pyabs (q : ℚ) : ℚ := if q < 0 then -q else q

/-- Python `int()` truncation toward zero of an exact rational. -/
def pyInt (q : ℚ) : ℤ := if q < 0 then -(Int.floor (-q)) else Int.floor q

/-- Python builtin `max(a, b)` (`b if b > a else a`) on possibly-NaN
floats: if `a` is NaN the comparison is False and NaN is returned; if `b`
is NaN, `a` is returned.  Used for `kumo_top = max(senkou_a, senkou_b)`. -/
def pymaxO (a b : Option ℚ) : Option ℚ :=
  match a, b with
  | some x, some y => some (if x < y then y else x)
  | some x, none => some x
  | none, _ => none

/-- Mirrors the `ewm(span=N, adjust=False).mean()` tail: recursive exponential
smoothing `e_i = a*x_i + (1-a)*e_(i-1)` continuing from seed `e`. -/
def ewmaFrom (a e : ℚ) : List ℚ → List ℚ
  | [] => []
  | x :: xs =>
    let e2 := a * x + (1 - a) * e
    e2 :: ewmaFrom a e2 xs

/-- Mirrors `ewm(span=N, adjust=False).mean()` over a whole series, seeded with
the first value (pandas `adjust=False` behaviour); `a = 2/(N+1)`. -/
def ewmaList (a : ℚ) : List ℚ → List ℚ
  | [] => []
  | x :: xs => x :: ewmaFrom a x xs

/-- Mirrors `ma5 = hist[Close].rolling(window=5).mean().iloc[-1]`. -/
def ma5v (s : List Bar) : Option ℚ := rollMeanLast 5 (closes s)

/-- Mirrors `ma25 = hist[Close].rolling(window=25).mean().iloc[-1]`. -/
def ma25v (s : List Bar) : Option ℚ := rollMeanLast 25 (closes s)

/-- Mirrors `ma75 = hist[Close].rolling(window=75).mean().iloc[-1]`. -/
def ma75v (s : List Bar) : Option ℚ := rollMeanLast 75 (closes s)

/-- Mirrors `ma25_prev = hist[Close].rolling(window=25).mean().iloc[-6]`
(the MA25 five bars back).  The value is NaN until 30 bars exist.  For
series of fewer than 6 bars `.iloc[-6]` raises IndexError, which
`analyzeStockBody` models separately; this def is then not consulted. -/
def ma25prevV (s : List Bar) : Option ℚ :=
  rollMeanLast 25 ((closes s).take (s.length - 5))

/-- True-range series: `max(high-low, |high-prevClose|, |low-prevClose|)`;
the first row has no previous close (NaN columns are skipped by the
row-wise max), leaving `high - low`. -/
def trAux (prev : Bar) : List Bar → List ℚ
  | [] => []
  | b :: rest =>
    max (b.high - b.low) (max (pyabs (b.high - prev.close)) (pyabs (b.low - prev.close)))
      :: trAux b rest

def trueRanges : List Bar → List ℚ
  | [] => []
  | b :: rest => (b.high - b.low) :: trAux b rest

/-- Mirrors `atr = tr.rolling(14).mean().iloc[-1]` (NaN below 14 bars). -/
def atrV (s : List Bar) : Option ℚ := rollMeanLast 14 (trueRanges s)

/-- The MACD line `ema12 - ema26` as a series (spans 12 and 26, so
smoothing factors 2/13 and 2/27). -/
def macdList (s : List Bar) : List ℚ :=
  List.zipWith (fun x y => x - y) (ewmaList (2/13) (closes s)) (ewmaList (2/27) (closes s))

/-- Mirrors `macd_val = macd.iloc[-1]`. -/
def macdV (s : List Bar) : ℚ := lastD (macdList s)

/-- Mirrors `signal_val = macd.ewm(span=9, adjust=False).mean().iloc[-1]`
(smoothing factor 2/10 = 1/5). -/
def signalV (s : List Bar) : ℚ := lastD (ewmaList (1/5) (macdList s))

/-- Midpoint of the `w`-bar high/low channel at row index `j`
(`(rolling(w).max() + rolling(w).min()) / 2` evaluated at `j`); NaN while
the window is not full. -/
def midAt (w j : ℕ) (s : List Bar) : Option ℚ :=
  if j + 1 < w then none
  else some ((maxListD (lastN w ((highs s).take (j + 1))) +
              minListD (lastN w ((lows s).take (j + 1)))) / 2)

/-- Mirrors `tenkan.iloc[-1]`: 9-bar midpoint at the last row. -/
def tenkanV (s : List Bar) : Option ℚ := midAt 9 (s.length - 1) s

/-- Mirrors `kijun.iloc[-1]`: 26-bar midpoint at the last row. -/
def kijunV (s : List Bar) : Option ℚ := midAt 26 (s.length - 1) s

/-- Mirrors `senkou_a = ((tenkan + kijun)/2).shift(26)` at the last row: the
average of tenkan and kijun 26 rows back (NaN when out of range or when
either component is NaN there). -/
def senkouAV (s : List Bar) : Option ℚ :=
  if s.length < 27 then none
  else
    match midAt 9 (s.length - 27) s, midAt 26 (s.length - 27) s with
    | some a, some b => some ((a + b) / 2)
    | _, _ => none

/-- Mirrors `senkou_b`: the 52-bar midpoint shifted 26 rows, at the last row. -/
def senkouBV (s : List Bar) : Option ℚ :=
  if s.length < 27 then none else midAt 52 (s.length - 27) s

/-- Mirrors `kumo_top = max(senkou_a_val, senkou_b_val)` with Python max/NaN
semantics. -/
def kumoTopV (s : List Bar) : Option ℚ := pymaxO (senkouAV s) (senkouBV s)

/-- Mirrors `gain = delta.where(delta > 0, 0)`: positive parts of the close
differences; the leading NaN of `.diff()` fails the `> 0` test and is
replaced by 0, so the series has one 0 slot in front. -/
def gainList (s : List Bar) : List ℚ :=
  0 :: (diffList (closes s)).map (fun d => if 0 < d then d else 0)

/-- Mirrors `loss = -delta.where(delta < 0, 0)`: magnitudes of the negative close
differences, with the same leading 0 slot. -/
def lossList (s : List Bar) : List ℚ :=
  0 :: (diffList (closes s)).map (fun d => if d < 0 then -d else 0)

/-- 14-bar rolling mean of gains at the last row. -/
def avgGainV (s : List Bar) : Option ℚ := rollMeanLast 14 (gainList s)

/-- 14-bar rolling mean of losses at the last row. -/
def avgLossV (s : List Bar) : Option ℚ := rollMeanLast 14 (lossList s)

/-- Mirrors `rsi = 100 - (100 / (1 + gain.rolling(14).mean()/loss.rolling(14).mean())).iloc[-1]`
under IEEE float semantics: if the average loss is 0 and the average gain
is positive, `rs = +inf` and the RSI saturates at 100; if both averages
are 0 (a flat window), `rs = 0/0 = NaN` and the RSI is NaN (`none`);
otherwise the finite formula applies. -/
def rsiV (s : List Bar) : Option ℚ :=
  match avgGainV s, avgLossV s with
  | some g, some l =>
    if l = 0 then (if g = 0 then none else some 100)
    else some (100 - 100 / (1 + g / l))
  | _, _ => none

/-- Mirrors `vol_ma25 = hist[Volume].rolling(window=25).mean().iloc[-1]`. -/
def volMA25V (s : List Bar) : Option ℚ := rollMeanLast 25 (volumes s)

/-- Mirrors `current_vol = hist[Volume].iloc[-1]`. -/
def currentVol (s : List Bar) : ℚ := lastD (volumes s)

/-- Mirrors `vol_ratio = current_vol / vol_ma25 if vol_ma25 > 0 else 1.0`; a NaN
average also fails the `> 0` test, giving 1.0. -/
def volRateV (s : List Bar) : ℚ :=
  match volMA25V s with
  | some v => if 0 < v then currentVol s / v else 1
  | none => 1

/-- Mirrors `prev_close = hist[Close].iloc[-2]`. -/
def prevCloseV (s : List Bar) : ℚ := (closes s).getD (s.length - 2) 0

/-- Mirrors `daily_ret = (current_price - prev_close) / prev_close`, with the
try/except leaving 0.0 when fewer than 2 bars exist.  (With the positive
prices of a valid series the denominator is nonzero, so exact division
agrees with the float computation.) -/
def dailyRetV (s : List Bar) : ℚ :=
  if s.length < 2 then 0 else (lastClose s - prevCloseV s) / prevCloseV s

/-- Mirrors `recent_high = hist[High].iloc[-60:].max()`. -/
def recentHighV (s : List Bar) : ℚ := maxListD (lastN 60 (highs s))

/-- Risk/reward ratio of the scoring engine itself (analyze_nikkei_score.py
lines 203-211): stop at `ma25 - atr`, or `price - 2*atr` when the price is
below MA25; upside to the 60-bar high; a non-positive downside is replaced
by 0.1 before dividing.  NaN (`none`) when MA25 or ATR is undefined. -/
def rrAnalyzeV (s : List Bar) : Option ℚ :=
  match ma25v s, atrV s with
  | some m, some a =>
    let cur := lastClose s
    let stop := if cur < m then cur - 2 * a else m - a
    let dn := cur - stop
    let dn2 := if dn ≤ 0 then 1/10 else dn
    some ((recentHighV s - cur) / dn2)
  | _, _ => none

/-- Trend category subscore (analyze_nikkei_score.py lines 166-173):
seven independent additive conditions, +10/+10/+10/+5/+5/+5/+5. -/
def scoreTrendV (s : List Bar) : ℚ :=
  (if pyGT (some (lastClose s)) (ma25v s) then 10 else 0) +
  (if pyGT (ma25v s) (ma25prevV s) then 10 else 0) +
  (if pyGT (ma5v s) (ma25v s) then 10 else 0) +
  (if pyGT (some (lastClose s)) (kumoTopV s) then 5 else 0) +
  (if pyGT (tenkanV s) (kijunV s) then 5 else 0) +
  (if signalV s < macdV s then 5 else 0) +
  (if 0 < macdV s then 5 else 0)

/-- Momentum category subscore (lines 176-178): +20 for RSI in [50,75],
+10 for RSI in [40,50), -5 for RSI above 80; NaN RSI falls through all
comparisons, leaving 0. -/
def scoreMomV (s : List Bar) : ℚ :=
  match rsiV s with
  | some r =>
    if 50 ≤ r ∧ r ≤ 75 then 20
    else if 40 ≤ r ∧ r < 50 then 10
    else if 80 < r then -5
    else 0
  | none => 0

/-- Volume category subscore (lines 189-195): ratio above 1.5 gives -10
on a panic day (daily return below -3%) and +10 otherwise; else ratio
above 1.2 with daily return above -2% gives +5. -/
def scoreVolV (s : List Bar) : ℚ :=
  if 3/2 < volRateV s then (if dailyRetV s < -3/100 then -10 else 10)
  else if 6/5 < volRateV s ∧ -1/50 < dailyRetV s then 5 else 0

def pbrOf : Option Fundamentals → ℚ
  | some f => f.pbr
  | none => 0

def perOf : Option Fundamentals → ℚ
  | some f => f.per
  | none => 0

/-- Fundamentals category subscore (lines 198-199). -/
def scoreFundV (f : Option Fundamentals) : ℚ :=
  (if 0 < pbrOf f ∧ pbrOf f < 3/2 then 5 else 0) +
  (if 0 < perOf f ∧ perOf f < 25 then 5 else 0)

/-- Risk/reward category subscore (lines 212-214): `min(10, rr * 3)` when
`rr >= 1.0`, otherwise 0 (a NaN rr fails the comparison). -/
def scoreRRV (s : List Bar) : ℚ :=
  match rrAnalyzeV s with
  | some q => if 1 ≤ q then min 10 (3 * q) else 0
  | none => 0

/-- Mirrors `total_score = score_trend + score_mom + score_vol + score_fund + score_rr`. -/
def totalScoreV (s : List Bar) (f : Option Fundamentals) : ℚ :=
  scoreTrendV s + scoreMomV s + scoreVolV s + scoreFundV f + scoreRRV s

/-- The per-category integer breakdown `ScoreDetail` of the returned
dict. -/
structure ScoreDetail where
  trend : ℤ
  momentum : ℤ
  volume : ℤ
  fundamentals : ℤ
  riskReward : ℤ
deriving DecidableEq

/-- The numeric fields of the dict returned by `analyze_stock` (the
commentary and tag strings are presentation only and not modelled). -/
structure AnalyzeResult where
  price : ℚ
  score : ℤ
  ma25 : Option ℚ
  deviationPct : Option ℚ
  rsi : Option ℚ
  pbr : ℚ
  per : ℚ
  rr : Option ℚ
  detail : ScoreDetail
deriving DecidableEq

/-- The successful result record of `analyze_stock` (series of length at
least 6): `score = min(100, int(total_score))` and the int-truncated
category breakdown. -/
def mkAnalyzeResult (s : List Bar) (f : Option Fundamentals) : AnalyzeResult :=
  { price := lastClose s
    score := min 100 (pyInt (totalScoreV s f))
    ma25 := ma25v s
    deviationPct := (ma25v s).map (fun m => (lastClose s - m) / m * 100)
    rsi := rsiV s
    pbr := pbrOf f
    per := perOf f
    rr := rrAnalyzeV s
    detail :=
      { trend := pyInt (scoreTrendV s)
        momentum := pyInt (scoreMomV s)
        volume := pyInt (scoreVolV s)
        fundamentals := pyInt (scoreFundV f)
        riskReward := pyInt (scoreRRV s) } }

/-- The body of `analyze_stock` inside its top-level `try`: an empty
series returns None directly; a series of 1 to 5 bars raises IndexError
at `ma25_prev = ....iloc[-6]` (line 70), the only uncaught raise in the
body; otherwise the result record is produced (every later step is
NaN-tolerant and raises nothing). -/
def analyzeStockBody (s : List Bar) (f : Option Fundamentals) :
    Except String (Option AnalyzeResult) :=
  if s.length = 0 then .ok none
  else if s.length < 6 then .error "IndexError: iloc index -6 is out of bounds"
  else .ok (some (mkAnalyzeResult s f))

/-- Models `analyze_stock`: the top-level `except Exception` handler (lines
302-304) turns every raise from the body into None. -/
def analyzeStock (s : List Bar) (f : Option Fundamentals) : Option AnalyzeResult :=
  match analyzeStockBody s f with
  | .ok o => o
  | .error _ => none

def scoreOf (s : List Bar) (f : Option Fundamentals) : Option ℤ :=
  (analyzeStock s f).map AnalyzeResult.score

def trendOf (s : List Bar) (f : Option Fundamentals) : Option ℤ :=
  (analyzeStock s f).map (fun r => r.detail.trend)

def momOf (s : List Bar) (f : Option Fundamentals) : Option ℤ :=
  (analyzeStock s f).map (fun r => r.detail.momentum)

def volOf (s : List Bar) (f : Option Fundamentals) : Option ℤ :=
  (analyzeStock s f).map (fun r => r.detail.volume)

/-- The entry-policy labels of `get_strategy_metrics` (the `dip_desc`
strings). -/
inductive EntryPolicy where
  | momentumBuy
  | trendFollow
  | dipBuy
  | rebound
  | bottomFishing
deriving DecidableEq

/-- The numeric fields of the dict returned by `get_strategy_metrics`
(report text and plot data are presentation only). -/
structure StrategyPlan where
  currentPrice : ℚ
  entryPrice : ℚ
  policy : EntryPolicy
  stopLoss : ℚ
  targetProfit : ℚ
  rr : ℚ
  atr : ℚ
deriving DecidableEq

/-- The successful plan of `get_strategy_metrics` given a defined
`atr = a` (calculate_swing_strategy.py lines 17-74): the five-rule entry
decision table, `stop = entry - 2*atr`, the 60-bar-high target widened to
`entry + 4*atr` when closer than `1.5*atr`, and
`rr = profit / loss if loss > 0 else 0`.  The `.getD 0` defaults are never
consulted: a branch reading ma5/ma25/ma75 is only reachable when that
average is defined. -/
def mkStrategyPlan (s : List Bar) (a : ℚ) : StrategyPlan :=
  let cur := lastClose s
  let ep : ℚ × EntryPolicy :=
    if pyGT (some cur) (ma5v s) && pyGE (rsiV s) (some 60) then (cur, .momentumBuy)
    else if pyGT (some cur) (ma25v s) && pyGE (rsiV s) (some 45) then ((ma5v s).getD 0, .trendFollow)
    else if pyGT (some cur) (ma25v s) then ((ma25v s).getD 0, .dipBuy)
    else if pyGT (some cur) (ma75v s) then ((ma75v s).getD 0, .rebound)
    else (cur, .bottomFishing)
  let entry := ep.1
  let stop := entry - 2 * a
  let target := if recentHighV s - entry < 3/2 * a then entry + 4 * a else recentHighV s
  let profit := target - entry
  let loss := entry - stop
  { currentPrice := cur
    entryPrice := entry
    policy := ep.2
    stopLoss := stop
    targetProfit := target
    rr := if 0 < loss then profit / loss else 0
    atr := a }

/-- Models `get_strategy_metrics`: raises ValueError on an empty history (line
15); with fewer than 14 bars the ATR is NaN and the report line
`int(stop_loss)` raises `ValueError: cannot convert float NaN to integer`
(line 141); otherwise the plan is returned. -/
def getStrategyMetrics (s : List Bar) : Except String StrategyPlan :=
  if s.length = 0 then .error "ValueError: No price data found (History is empty)"
  else
    match atrV s with
    | none => .error "ValueError: cannot convert float NaN to integer"
    | some a => .ok (mkStrategyPlan s a)

/-- Modelled from the spec: the risk/reward formula the specification
asserts for the Strategy Deriver, with the denominator floor-clamped to a
small positive epsilon (the codebase uses 0.1 as its epsilon, in
analyze_nikkei_score.py line 209).  `get_strategy_metrics` itself does not
clamp; this definition exists to compare the two. -/
def specClampedRR (p : StrategyPlan) (eps : ℚ) : ℚ :=
  (p.targetProfit - p.entryPrice) / max (p.entryPrice - p.stopLoss) eps

/-- Data-model invariant of a PriceBar (spec section 3), plus positive
prices (an equity price series). -/
def validBarB (b : Bar) : Bool :=
  decide (max b.openPrice b.close ≤ b.high) &&
  decide (b.low ≤ min b.openPrice b.close) &&
  decide (0 ≤ b.volume) &&
  decide (0 < b.low)

def validSeriesB (s : List Bar) : Bool := s.all validBarB

/-- A bar with close `c`, high one above, low one below, volume 100. -/
def nearBar (c : ℚ) : Bar := ⟨c, c + 1, c - 1, c, 100⟩

/-- A flat wide-range bar: close 1000, high 1050, low 950, volume 100. -/
def flatBar : Bar := ⟨1000, 1050, 950, 1000, 100⟩

/-- 80 identical wide-range bars (flat closes, nonzero true range). -/
def rangeSeries80 : List Bar := List.replicate 80 flatBar

/-- 79 flat wide-range bars followed by a 4% drop on ten-fold volume. -/
def c1series : List Bar := List.replicate 79 flatBar ++ [⟨960, 1000, 950, 960, 1000⟩]

/-- 79 flat wide-range bars (volume 250) followed by a 4% drop on volume
350 (volume ratio 350/254, between 1.3 and 1.5). -/
def c7series : List Bar :=
  List.replicate 79 (⟨1000, 1050, 950, 1000, 250⟩ : Bar) ++ [⟨960, 1000, 950, 960, 350⟩]

/-- 66 flat bars, ten +8 closes, then four -5 closes: the last 14 close
differences are ten gains of 8 and four losses of 5, so RSI = 80. -/
def c9series : List Bar :=
  List.replicate 66 (nearBar 1000) ++
  (List.range 10).map (fun i => nearBar (1008 + 8 * (i : ℚ))) ++
  [nearBar 1075, nearBar 1070, nearBar 1065, nearBar 1060]

/-- A clean 80-bar uptrend: closes 1000, 1002, ..., 1158. -/
def risingSeries : List Bar := (List.range 80).map (fun i => nearBar (1000 + 2 * (i : ℚ)))

/-- 25 bars pinned at 1100 followed by 15 bars pinned at 1000: the last
14 true ranges are all 0 (ATR = 0) while the 60-bar high stays 1100. -/
def c3series : List Bar :=
  List.replicate 25 (⟨1100, 1100, 1100, 1100, 100⟩ : Bar) ++
  List.replicate 15 (⟨1000, 1000, 1000, 1000, 100⟩ : Bar)

/-- Three bars: enough to pass the emptiness guard but `.iloc[-6]`
raises. -/
def threeBars : List Bar := List.replicate 3 flatBar


/-- The plan returned for `risingSeries`: a momentum buy at the last
close 1158, stop 1152, widened target 1170, risk/reward 2. -/
def risingPlan : StrategyPlan := ⟨1158, 1158, .momentumBuy, 1152, 1170, 2, 3⟩

/-- The plan returned for `c3series`: bottom-fishing entry at 1000 with a
zero ATR, so the stop equals the entry and the ratio is defined as 0. -/
def c3plan : StrategyPlan := ⟨1000, 1000, .bottomFishing, 1000, 1100, 0, 0⟩

/-- Inversion for a successful `analyzeStock` call: at least 6 bars, and
the result is the assembled record. -/
theorem analyzeStock_eq_some (s : List Bar) (f : Option Fundamentals) (r : AnalyzeResult)
    (h : analyzeStock s f = some r) : 6 ≤ s.length ∧ r = mkAnalyzeResult s f := by
  unfold analyzeStock analyzeStockBody at h
  by_cases h0 : s.length = 0
  · rw [if_pos h0] at h
    exact Option.noConfusion h
  · rw [if_neg h0] at h
    by_cases h6 : s.length < 6
    · rw [if_pos h6] at h
      exact Option.noConfusion h
    · rw [if_neg h6] at h
      exact ⟨by omega, (Option.some.inj h).symm⟩

/-- Inversion for a successful `getStrategyMetrics` call: the ATR is
defined and the plan is the assembled record. -/
theorem getStrategyMetrics_eq_ok (s : List Bar) (p : StrategyPlan)
    (h : getStrategyMetrics s = .ok p) : ∃ a, atrV s = some a ∧ p = mkStrategyPlan s a := by
  unfold getStrategyMetrics at h
  by_cases h0 : s.length = 0
  · rw [if_pos h0] at h
    exact Except.noConfusion h
  · rw [if_neg h0] at h
    cases ha : atrV s with
    | none => rw [ha] at h; exact Except.noConfusion h
    | some a =>
      rw [ha] at h
      exact ⟨a, rfl, (Except.ok.inj h).symm⟩

/-- Truncation toward zero is bounded above by any integer bound on the
rational. -/
theorem pyInt_le {q : ℚ} {n : ℤ} (h : q ≤ (n : ℚ)) : pyInt q ≤ n := by
  unfold pyInt
  split_ifs with hq
  · have h2 : ((-n : ℤ) : ℚ) ≤ -q := by push_cast; linarith
    have := Int.le_floor.mpr h2
    omega
  · calc Int.floor q ≤ Int.floor ((n : ℚ)) := Int.floor_le_floor h
    _ = n := Int.floor_intCast n

/-- Truncation toward zero is bounded below by any integer bound on the
rational. -/
theorem le_pyInt {q : ℚ} {n : ℤ} (h : (n : ℚ) ≤ q) : n ≤ pyInt q := by
  unfold pyInt
  split_ifs with hq
  · have h2 : Int.floor (-q) ≤ Int.floor (((-n : ℤ) : ℚ)) :=
      Int.floor_le_floor (by push_cast; linarith)
    rw [Int.floor_intCast] at h2
    omega
  · exact Int.le_floor.mpr h

theorem scoreTrendV_bounds (s : List Bar) : 0 ≤ scoreTrendV s ∧ scoreTrendV s ≤ 50 := by
  unfold scoreTrendV
  constructor <;> (split_ifs <;> norm_num)

theorem scoreMomV_bounds (s : List Bar) : -5 ≤ scoreMomV s ∧ scoreMomV s ≤ 20 := by
  unfold scoreMomV
  cases rsiV s with
  | none => norm_num
  | some r =>
    dsimp only
    split_ifs <;> norm_num

theorem scoreVolV_bounds (s : List Bar) : -10 ≤ scoreVolV s ∧ scoreVolV s ≤ 10 := by
  unfold scoreVolV
  constructor <;> (split_ifs <;> norm_num)

theorem scoreFundV_bounds (f : Option Fundamentals) : 0 ≤ scoreFundV f ∧ scoreFundV f ≤ 10 := by
  unfold scoreFundV
  constructor <;> (split_ifs <;> norm_num)

theorem scoreRRV_bounds (s : List Bar) : 0 ≤ scoreRRV s ∧ scoreRRV s ≤ 10 := by
  unfold scoreRRV
  cases h : rrAnalyzeV s with
  | none => norm_num
  | some q =>
    dsimp only
    split_ifs with h1
    · exact ⟨le_min (by norm_num) (by linarith), min_le_left _ _⟩
    · norm_num

/-- C1 (amended): whenever `analyze_stock` returns a score, that score
equals `min(100, int(total_score))` — the sum of the five category
subscores truncated toward zero and clamped above at 100 only — so it is
an integer at most 100 and at least -15, but it is not clamped below at 0
and can be negative. -/
theorem c1_score_formula_and_range (s : List Bar) (f : Option Fundamentals) (z : ℤ)
    (h : scoreOf s f = some z) :
    z = min 100 (pyInt (totalScoreV s f)) ∧ -15 ≤ z ∧ z ≤ 100 := by
  unfold scoreOf at h
  rw [Option.map_eq_some'] at h
  obtain ⟨r, hr, hz⟩ := h
  obtain ⟨-, hmk⟩ := analyzeStock_eq_some s f r hr
  subst hmk
  have hz2 : z = min 100 (pyInt (totalScoreV s f)) := by rw [← hz]; rfl
  refine ⟨hz2, ?_, ?_⟩
  · rw [hz2]
    refine le_min (by norm_num) (le_pyInt ?_)
    have h1 := scoreTrendV_bounds s
    have h2 := scoreMomV_bounds s
    have h3 := scoreVolV_bounds s
    have h4 := scoreFundV_bounds f
    have h5 := scoreRRV_bounds s
    unfold totalScoreV
    push_cast
    linarith [h1.1, h2.1, h3.1, h4.1, h5.1]
  · rw [hz2]
    exact min_le_left _ _

/-- C1 witness: the amended theorem applied at the 80-bar flat wide-range
series, whose score is 0. -/
theorem c1_witness :
    scoreOf rangeSeries80 none = some 0 ∧
    ((0 : ℤ) = min 100 (pyInt (totalScoreV rangeSeries80 none)) ∧
      -15 ≤ (0 : ℤ) ∧ (0 : ℤ) ≤ 100) := by
  have h : scoreOf rangeSeries80 none = some 0 := by decide
  exact ⟨h, c1_score_formula_and_range rangeSeries80 none 0 h⟩

/-- C1 counterexample: a valid 80-bar series — 79 flat wide-range bars
followed by a 4% drop on ten-fold volume — on which `analyze_stock`
returns the score -10.  The claimed clamp of the total to [0, 100] does
not exist: only the upper clamp is applied, and the returned score is
negative. -/
theorem c1_counterexample :
    validSeriesB c1series = true ∧ c1series.length = 80 ∧
    scoreOf c1series none = some (-10) ∧ ¬((0 : ℤ) ≤ -10) := by decide

/-- C2 (code bug): on an empty price series `analyze_stock` returns the
no-result value None as specified, but `get_strategy_metrics` raises
ValueError to its caller instead of returning the no-result value that
both the specification and its own docstring promise. -/
theorem c2_empty_series_eval :
    analyzeStock [] none = none ∧
    getStrategyMetrics [] = .error "ValueError: No price data found (History is empty)" :=
  ⟨rfl, rfl⟩

/-- C10: the top-level `except Exception` handler of `analyze_stock`
turns every raising execution of the body into the no-result value None
and passes successful outcomes through unchanged, so no exception reaches
the caller. -/
theorem c10_no_raise_to_caller :
    (∀ s f e, analyzeStockBody s f = .error e → analyzeStock s f = none) ∧
    (∀ s f o, analyzeStockBody s f = .ok o → analyzeStock s f = o) := by
  constructor
  · intro s f e h
    unfold analyzeStock
    rw [h]
  · intro s f o h
    unfold analyzeStock
    rw [h]

/-- C10 witness: a 3-bar series makes the body raise (IndexError at
`.iloc[-6]`) and the handler returns None. -/
theorem c10_witness :
    analyzeStockBody threeBars none = .error "IndexError: iloc index -6 is out of bounds" ∧
    analyzeStock threeBars none = none := by
  have h : analyzeStockBody threeBars none =
      .error "IndexError: iloc index -6 is out of bounds" := by rfl
  exact ⟨h, c10_no_raise_to_caller.1 threeBars none _ h⟩

theorem avgGainV_nonneg (s : List Bar) (g : ℚ) (h : avgGainV s = some g) : 0 ≤ g := by
  unfold avgGainV rollMeanLast at h
  split_ifs at h with hl
  have hg : g = (lastN 14 (gainList s)).sum / (14 : ℚ) := (Option.some.inj h).symm
  rw [hg]
  refine div_nonneg (List.sum_nonneg ?_) (by norm_num)
  intro x hx
  have hx2 : x ∈ gainList s := List.mem_of_mem_drop hx
  unfold gainList at hx2
  rcases List.mem_cons.mp hx2 with h0 | hmem
  · rw [h0]
  · obtain ⟨d, -, hd⟩ := List.mem_map.mp hmem
    rw [← hd]
    split_ifs with hdp
    · linarith
    · exact le_refl 0

theorem avgLossV_nonneg (s : List Bar) (l : ℚ) (h : avgLossV s = some l) : 0 ≤ l := by
  unfold avgLossV rollMeanLast at h
  split_ifs at h with hl
  have hg : l = (lastN 14 (lossList s)).sum / (14 : ℚ) := (Option.some.inj h).symm
  rw [hg]
  refine div_nonneg (List.sum_nonneg ?_) (by norm_num)
  intro x hx
  have hx2 : x ∈ lossList s := List.mem_of_mem_drop hx
  unfold lossList at hx2
  rcases List.mem_cons.mp hx2 with h0 | hmem
  · rw [h0]
  · obtain ⟨d, -, hd⟩ := List.mem_map.mp hmem
    rw [← hd]
    split_ifs with hdp
    · linarith
    · exact le_refl 0

/-- C6 (amended): whenever the RSI(14) the code computes is defined, it
lies in [0, 100]; on the saturation path — 14-bar average loss 0 with a
positive average gain — it is exactly 100.  When the average gain is also
0 (e.g. a flat series) the code computes rs = 0/0 = NaN and the RSI is
undefined rather than 100 (see the counterexample). -/
theorem c6_rsi_range (s : List Bar) (x : ℚ) (h : rsiV s = some x) :
    (0 ≤ x ∧ x ≤ 100) ∧ (avgLossV s = some 0 → x = 100) := by
  unfold rsiV at h
  cases hg : avgGainV s with
  | none => rw [hg] at h; exact Option.noConfusion h
  | some g =>
    cases hl : avgLossV s with
    | none => rw [hg, hl] at h; exact Option.noConfusion h
    | some l =>
      rw [hg, hl] at h
      dsimp only at h
      by_cases hl0 : l = 0
      · rw [if_pos hl0] at h
        by_cases hg0 : g = 0
        · rw [if_pos hg0] at h
          exact Option.noConfusion h
        · rw [if_neg hg0] at h
          have hx : x = 100 := (Option.some.inj h).symm
          exact ⟨by rw [hx]; norm_num, fun _ => hx⟩
      · rw [if_neg hl0] at h
        have hx : x = 100 - 100 / (1 + g / l) := (Option.some.inj h).symm
        have hgn : 0 ≤ g := avgGainV_nonneg s g hg
        have hln : 0 ≤ l := avgLossV_nonneg s l hl
        have hlp : 0 < l := lt_of_le_of_ne hln (Ne.symm hl0)
        have hrs : 0 ≤ g / l := div_nonneg hgn (le_of_lt hlp)
        have h1p : (0 : ℚ) < 1 + g / l := by linarith
        have hub : 100 / (1 + g / l) ≤ 100 := by
          rw [div_le_iff₀ h1p]
          nlinarith
        have hlb : 0 < 100 / (1 + g / l) := div_pos (by norm_num) h1p
        constructor
        · constructor
          · rw [hx]; linarith
          · rw [hx]; linarith
        · intro hcontra
          exact absurd (Option.some.inj hcontra) hl0

/-- C6 witness: the theorem applied to the RSI-80 series. -/
theorem c6_witness :
    rsiV c9series = some 80 ∧ (0 ≤ (80 : ℚ) ∧ (80 : ℚ) ≤ 100) := by
  have h : rsiV c9series = some 80 := by decide
  exact ⟨h, (c6_rsi_range c9series 80 h).1⟩

/-- C6 counterexample: a valid flat 80-bar series.  Its 14-bar average
gain and loss are both exactly 0, yet the RSI is undefined (0/0 = NaN in
the source), not the claimed saturation value 100. -/
theorem c6_counterexample :
    validSeriesB rangeSeries80 = true ∧ rangeSeries80.length = 80 ∧
    avgGainV rangeSeries80 = some 0 ∧ avgLossV rangeSeries80 = some 0 ∧
    rsiV rangeSeries80 = none ∧ ¬(rsiV rangeSeries80 = some 100) := by decide

/-- Core algebra of the strategy risk/reward guard: with stop at
`E - 2A`, a ratio of at least 1 forces stop < entry < target, a
non-positive stop distance yields the defined value 0 (no division), and
a positive stop distance yields the plain quotient. -/
theorem strategyRR_core (E T A : ℚ) :
    (1 ≤ (if 0 < E - (E - 2 * A) then (T - E) / (E - (E - 2 * A)) else 0) →
      E - 2 * A < E ∧ E < T) ∧
    (E - (E - 2 * A) ≤ 0 →
      (if 0 < E - (E - 2 * A) then (T - E) / (E - (E - 2 * A)) else 0) = 0) ∧
    (0 < E - (E - 2 * A) →
      (if 0 < E - (E - 2 * A) then (T - E) / (E - (E - 2 * A)) else 0) =
        (T - E) / (E - (E - 2 * A))) := by
  by_cases hp : 0 < E - (E - 2 * A)
  · rw [if_pos hp]
    refine ⟨?_, fun h2 => absurd hp (not_lt.mpr h2), fun _ => rfl⟩
    intro h1
    have hle := (one_le_div hp).mp h1
    constructor
    · linarith
    · linarith
  · rw [if_neg hp]
    refine ⟨?_, fun _ => rfl, fun h2 => absurd h2 hp⟩
    intro h1
    norm_num at h1

/-- C3 (amended): on every series where `get_strategy_metrics` produces a
plan, the risk/reward ratio is the exact finite quotient
(target - entry)/(entry - stop) when the stop distance is positive, and
is defined as 0 when it is not (the code guards with
`if potential_loss > 0 else 0`; it does not floor-clamp the denominator
to an epsilon — see the counterexample); whenever the ratio is at least
1.0 the plan satisfies stopLoss < entryPrice < targetProfit. -/
theorem c3_plan_ordering (s : List Bar) (p : StrategyPlan)
    (h : getStrategyMetrics s = .ok p) :
    (1 ≤ p.rr → p.stopLoss < p.entryPrice ∧ p.entryPrice < p.targetProfit) ∧
    (p.entryPrice - p.stopLoss ≤ 0 → p.rr = 0) ∧
    (0 < p.entryPrice - p.stopLoss →
      p.rr = (p.targetProfit - p.entryPrice) / (p.entryPrice - p.stopLoss)) := by
  obtain ⟨a, -, hp⟩ := getStrategyMetrics_eq_ok s p h
  subst hp
  exact strategyRR_core _ _ a

/-- C3 witness: the theorem applied to the clean 80-bar uptrend, whose
plan has ratio 2 and satisfies 1152 < 1158 < 1170. -/
theorem c3_witness :
    getStrategyMetrics risingSeries = .ok risingPlan ∧ 1 ≤ risingPlan.rr ∧
    risingPlan.stopLoss < risingPlan.entryPrice ∧
    risingPlan.entryPrice < risingPlan.targetProfit := by
  have h : getStrategyMetrics risingSeries = .ok risingPlan := by rfl
  have h1 : 1 ≤ risingPlan.rr := by decide
  obtain ⟨ho, -, -⟩ := c3_plan_ordering risingSeries risingPlan h
  obtain ⟨o1, o2⟩ := ho h1
  exact ⟨h, h1, o1, o2⟩

/-- C3 counterexample: a valid 40-bar series whose last 14 bars are pinned
(ATR = 0).  The plan has entry = stop = 1000, target 1100, and the code
returns rr = 0 without dividing; the floor-clamped formula asserted by the
claim (epsilon 0.1, the codebase value) would give 1000 instead, so the
denominator is not epsilon-clamped. -/
theorem c3_counterexample :
    validSeriesB c3series = true ∧
    getStrategyMetrics c3series = .ok c3plan ∧
    c3plan.rr = 0 ∧
    c3plan.entryPrice - c3plan.stopLoss = 0 ∧
    c3plan.targetProfit - c3plan.entryPrice = 100 ∧
    specClampedRR c3plan (1/10) = 1000 ∧
    ¬(specClampedRR c3plan (1/10) = c3plan.rr) := by
  refine ⟨by decide, by rfl, by decide, by decide, by decide, ?_, ?_⟩
  · unfold specClampedRR c3plan
    rw [max_def]
    norm_num
  · unfold specClampedRR c3plan
    rw [max_def]
    norm_num

/-- C4: whenever `get_strategy_metrics` produces a plan and ma5, ma25,
ma75 and RSI are all defined, the entry price and policy label follow the
five-rule decision table evaluated top-to-bottom with first match
winning: (1) price > ma5 and rsi ≥ 60: entry = current price (momentum
buy); (2) price > ma25 and rsi ≥ 45: entry = ma5 (trend follow); (3)
price > ma25: entry = ma25 (dip buy); (4) price > ma75: entry = ma75
(rebound); (5) otherwise entry = current price (bottom fishing). -/
theorem c4_entry_decision_table (s : List Bar) (p : StrategyPlan) (m5 m25 m75 r : ℚ)
    (h : getStrategyMetrics s = .ok p)
    (h5 : ma5v s = some m5) (h25 : ma25v s = some m25)
    (h75 : ma75v s = some m75) (hr : rsiV s = some r) :
    (p.entryPrice, p.policy) =
      (if lastClose s > m5 ∧ r ≥ 60 then (lastClose s, EntryPolicy.momentumBuy)
       else if lastClose s > m25 ∧ r ≥ 45 then (m5, EntryPolicy.trendFollow)
       else if lastClose s > m25 then (m25, EntryPolicy.dipBuy)
       else if lastClose s > m75 then (m75, EntryPolicy.rebound)
       else (lastClose s, EntryPolicy.bottomFishing)) := by
  obtain ⟨a, -, hp⟩ := getStrategyMetrics_eq_ok s p h
  subst hp
  unfold mkStrategyPlan
  rw [h5, h25, h75, hr]
  simp only [pyGT, pyGE, Option.getD_some, Bool.and_eq_true, decide_eq_true_eq,
    gt_iff_lt, ge_iff_le, Prod.mk.eta]

/-- C4 witness: the table applied to the clean 80-bar uptrend selects the
momentum-buy rule, entering at the current price 1158. -/
theorem c4_witness :
    getStrategyMetrics risingSeries = .ok risingPlan ∧ lastClose risingSeries = 1158 ∧
    risingPlan.entryPrice = 1158 ∧ risingPlan.policy = EntryPolicy.momentumBuy := by
  have h : getStrategyMetrics risingSeries = .ok risingPlan := by rfl
  have hlc : lastClose risingSeries = 1158 := by decide
  have ht := c4_entry_decision_table risingSeries risingPlan 1154 1134 1084 100 h
    (by decide) (by decide) (by decide) (by decide)
  rw [hlc] at ht
  rw [if_pos (by norm_num : (1158 : ℚ) > 1154 ∧ (100 : ℚ) ≥ 60)] at ht
  have h2 := Prod.ext_iff.mp ht
  exact ⟨h, hlc, h2.1, h2.2⟩

/-- C5 (amended): the Trend subscore reported by `analyze_stock` is the
seven-condition additive rule the code implements — +10 if price > ma25,
+10 if ma25 > its value five bars back, +10 if ma5 > ma25, +5 if price >
kumo top, +5 if tenkan > kijun, +5 if MACD > signal, +5 if MACD > 0 —
truncated to an integer, and lies in [0, 50].  The contracted rule of the
claim (cap 30, ma25 > ma75 condition, continuous slope bonus) is not what
the code computes, and the subscore can exceed 30 (see counterexample). -/
theorem c5_trend_rule (s : List Bar) (f : Option Fundamentals) (t : ℤ)
    (h : trendOf s f = some t) :
    t = pyInt (scoreTrendV s) ∧
    scoreTrendV s =
      (if pyGT (some (lastClose s)) (ma25v s) then 10 else 0) +
      (if pyGT (ma25v s) (ma25prevV s) then 10 else 0) +
      (if pyGT (ma5v s) (ma25v s) then 10 else 0) +
      (if pyGT (some (lastClose s)) (kumoTopV s) then 5 else 0) +
      (if pyGT (tenkanV s) (kijunV s) then 5 else 0) +
      (if signalV s < macdV s then 5 else 0) +
      (if 0 < macdV s then 5 else 0) ∧
    0 ≤ t ∧ t ≤ 50 := by
  unfold trendOf at h
  rw [Option.map_eq_some'] at h
  obtain ⟨r, hr, ht⟩ := h
  obtain ⟨-, hmk⟩ := analyzeStock_eq_some s f r hr
  subst hmk
  have ht2 : t = pyInt (scoreTrendV s) := by rw [← ht]; rfl
  obtain ⟨b1, b2⟩ := scoreTrendV_bounds s
  refine ⟨ht2, rfl, ?_, ?_⟩
  · rw [ht2]
    exact le_pyInt (by push_cast; linarith)
  · rw [ht2]
    exact pyInt_le (by push_cast; linarith)

/-- C5 witness: the amended theorem applied to the flat wide-range
series, whose trend subscore is 0. -/
theorem c5_witness :
    trendOf rangeSeries80 none = some 0 ∧ (0 : ℤ) ≤ 0 ∧ (0 : ℤ) ≤ 50 := by
  have h : trendOf rangeSeries80 none = some 0 := by decide
  obtain ⟨-, -, hb1, hb2⟩ := c5_trend_rule rangeSeries80 none 0 h
  exact ⟨h, hb1, hb2⟩

/-- C5 counterexample: a valid 80-bar clean uptrend on which all seven
trend conditions fire and `analyze_stock` reports a Trend subscore of 50,
exceeding the contracted cap of 30 asserted by the claim. -/
theorem c5_counterexample :
    validSeriesB risingSeries = true ∧ risingSeries.length = 80 ∧
    trendOf risingSeries none = some 50 ∧ ¬((50 : ℤ) ≤ 30) := by decide

/-- C7 (amended): the Volume subscore uses thresholds 1.5 and 1.2 (not
1.3 and 2.0): ratio > 1.5 gives -10 when the daily return is below -3%
(panic) and +10 otherwise; else ratio > 1.2 with return above -2% gives
+5; in particular a spike beyond 1.5 with a drop worse than -3% always
scores exactly -10.  A ratio between 1.3 and 1.5 with such a drop scores
0, not a negative penalty (see counterexample). -/
theorem c7_volume_rule (s : List Bar) (f : Option Fundamentals) (v : ℤ)
    (h : volOf s f = some v) :
    v = pyInt (scoreVolV s) ∧
    scoreVolV s =
      (if 3/2 < volRateV s then (if dailyRetV s < -3/100 then -10 else 10)
       else if 6/5 < volRateV s ∧ -1/50 < dailyRetV s then 5 else 0) ∧
    (3/2 < volRateV s → dailyRetV s < -3/100 → v = -10) := by
  unfold volOf at h
  rw [Option.map_eq_some'] at h
  obtain ⟨r, hr, hv⟩ := h
  obtain ⟨-, hmk⟩ := analyzeStock_eq_some s f r hr
  subst hmk
  have hv2 : v = pyInt (scoreVolV s) := by rw [← hv]; rfl
  refine ⟨hv2, rfl, ?_⟩
  intro h1 h2
  rw [hv2]
  unfold scoreVolV
  rw [if_pos h1, if_pos h2]
  decide

/-- C7 witness: the panic branch applied to the series with volume ratio
125/17 > 1.5 and daily return -4%: the subscore is exactly -10. -/
theorem c7_witness :
    volOf c1series none = some (-10) ∧ (3/2 : ℚ) < volRateV c1series ∧
    dailyRetV c1series < -3/100 ∧ (-10 : ℤ) = -10 := by
  have h : volOf c1series none = some (-10) := by decide
  have h1 : (3/2 : ℚ) < volRateV c1series := by decide
  have h2 : dailyRetV c1series < -3/100 := by decide
  exact ⟨h, h1, h2, (c7_volume_rule c1series none (-10) h).2.2 h1 h2⟩

/-- C7 counterexample: a valid 80-bar series whose final bar drops 4% on
a volume ratio of 175/127, which exceeds the claimed 1.3 spike threshold;
the Volume subscore is 0 — no bonus tier starts at 1.3 and no penalty is
applied — contradicting the claimed thresholds and the claimed negative
subscore. -/
theorem c7_counterexample :
    validSeriesB c7series = true ∧
    volRateV c7series = 175/127 ∧ (13/10 : ℚ) < 175/127 ∧
    dailyRetV c7series < -3/100 ∧
    volOf c7series none = some 0 ∧ ¬((0 : ℤ) < 0) := by decide

/-- C9 (amended): the Momentum subscore is +20 exactly for RSI in the
band [50, 75], +10 for RSI in [40, 50), and the overbought penalty of -5
applies only for RSI above 80 — for RSI in (75, 80] the subscore is 0,
not negative.  The subscore never exceeds 20. -/
theorem c9_momentum_rule (s : List Bar) (f : Option Fundamentals) (m : ℤ)
    (h : momOf s f = some m) :
    m = pyInt (scoreMomV s) ∧
    m ≤ 20 ∧
    (∀ x, rsiV s = some x → 50 ≤ x → x ≤ 75 → m = 20) ∧
    (∀ x, rsiV s = some x → 75 < x → x ≤ 80 → m = 0) ∧
    (∀ x, rsiV s = some x → 80 < x → m = -5) := by
  unfold momOf at h
  rw [Option.map_eq_some'] at h
  obtain ⟨r, hr, hm⟩ := h
  obtain ⟨-, hmk⟩ := analyzeStock_eq_some s f r hr
  subst hmk
  have hm2 : m = pyInt (scoreMomV s) := by rw [← hm]; rfl
  obtain ⟨-, b2⟩ := scoreMomV_bounds s
  refine ⟨hm2, by rw [hm2]; exact pyInt_le (by push_cast; linarith), ?_, ?_, ?_⟩
  · intro x hx h50 h75
    rw [hm2]
    unfold scoreMomV
    rw [hx]
    dsimp only
    rw [if_pos ⟨h50, h75⟩]
    decide
  · intro x hx h75 h80
    rw [hm2]
    unfold scoreMomV
    rw [hx]
    dsimp only
    rw [if_neg (fun hc => absurd hc.2 (by linarith)),
      if_neg (fun hc => absurd hc.2 (by linarith)),
      if_neg (not_lt.mpr h80)]
    decide
  · intro x hx h80
    rw [hm2]
    unfold scoreMomV
    rw [hx]
    dsimp only
    rw [if_neg (fun hc => absurd hc.2 (by linarith)),
      if_neg (fun hc => absurd hc.2 (by linarith)),
      if_pos h80]
    decide

/-- C9 witness: the band rule applied to the series with RSI exactly 80:
the subscore is 0. -/
theorem c9_witness :
    momOf c9series none = some 0 ∧ rsiV c9series = some 80 ∧ (0 : ℤ) = 0 := by
  have h : momOf c9series none = some 0 := by decide
  have hx : rsiV c9series = some 80 := by decide
  exact ⟨h, hx,
    (c9_momentum_rule c9series none 0 h).2.2.2.1 80 hx (by norm_num) (by norm_num)⟩

/-- C9 counterexample: a valid series with RSI exactly 80, which is above
the claimed penalty threshold of 75, yet the Momentum subscore is 0, not
negative: the penalty only fires above 80. -/
theorem c9_counterexample :
    validSeriesB c9series = true ∧
    rsiV c9series = some 80 ∧ (75 : ℚ) < 80 ∧
    momOf c9series none = some 0 ∧ ¬((0 : ℤ) < 0) := by decide

/-- C8 (amended): the Risk/Reward subscore of the scoring engine equals
min(10, rr*3) when rr ≥ 1.0 and 0 otherwise, where rr is the ratio
`rrAnalyzeV` of the scoring engine itself — upside to the 60-bar high over the
distance to a stop at ma25 - atr (or price - 2*atr below MA25) with a
non-positive denominator replaced by 0.1.  This ratio is not the ratio of the
Strategy Deriver, and the two disagree on common inputs (see
counterexample). -/
theorem c8_rr_subscore (s : List Bar) (f : Option Fundamentals) (r : AnalyzeResult)
    (h : analyzeStock s f = some r) :
    r.rr = rrAnalyzeV s ∧
    r.detail.riskReward = pyInt (scoreRRV s) ∧
    (∀ q, rrAnalyzeV s = some q → 1 ≤ q → scoreRRV s = min 10 (3 * q)) ∧
    (∀ q, rrAnalyzeV s = some q → q < 1 → scoreRRV s = 0) ∧
    (rrAnalyzeV s = none → scoreRRV s = 0) := by
  obtain ⟨-, hmk⟩ := analyzeStock_eq_some s f r h
  subst hmk
  refine ⟨rfl, rfl, ?_, ?_, ?_⟩
  · intro q hq h1
    unfold scoreRRV
    rw [hq]
    dsimp only
    rw [if_pos h1]
  · intro q hq h1
    unfold scoreRRV
    rw [hq]
    dsimp only
    rw [if_neg (not_le.mpr h1)]
  · intro hq
    unfold scoreRRV
    rw [hq]

/-- C8 witness: the subscore rule applied to the flat wide-range series,
whose scoring-engine ratio is 1/2 < 1, so the subscore is 0. -/
theorem c8_witness :
    analyzeStock rangeSeries80 none = some (mkAnalyzeResult rangeSeries80 none) ∧
    rrAnalyzeV rangeSeries80 = some (1/2) ∧ scoreRRV rangeSeries80 = 0 := by
  have h : analyzeStock rangeSeries80 none = some (mkAnalyzeResult rangeSeries80 none) := rfl
  have h1 : rrAnalyzeV rangeSeries80 = some (1/2) := by decide
  exact ⟨h, h1, (c8_rr_subscore rangeSeries80 none _ h).2.2.2.1 (1/2) h1 (by norm_num)⟩

/-- C8 counterexample: on the same valid 80-bar series both engines
compute a ratio, but the scoring engine gets 1/2 while the Strategy
Deriver gets 2: the two risk/reward computations do not agree. -/
theorem c8_counterexample :
    validSeriesB rangeSeries80 = true ∧
    (analyzeStock rangeSeries80 none).map AnalyzeResult.rr = some (some (1/2)) ∧
    (getStrategyMetrics rangeSeries80).toOption.map StrategyPlan.rr = some 2 ∧
    ¬((1 : ℚ)/2 = 2) := by decide
